import Mathlib

/-!
Verification development for the `tdx-workload-attestation` library.

The Rust sources are shallowly embedded: byte buffers (`&[u8]`, `Vec<u8>`,
`[u8; N]`) become `List Nat` (byte values; the embedded code never performs
arithmetic on bytes, only copies and equality tests), fallible functions
(`Result<T>`) become `Except Error T`, and calls into external libraries
(openssl, the filesystem, the TDX device ioctl, the `gcloud` fetch, protobuf
decoding) become explicit oracle parameters recording the outcome of each
external call, so that theorems quantify over every possible behaviour of
the outside world.
-/

set_option maxRecDepth 8192

namespace TdxAttest

/-- The error enum from `src/error.rs` (variant per variant, each carrying
its message string). -/
inductive Error where
  | IoError (msg : String)
  | NotSupported (msg : String)
  | ParseError (msg : String)
  | QuoteError (msg : String)
  | RtmrExtendError (msg : String)
  | AddressError (msg : String)
  | SerializationError (msg : String)
  | SignatureError (msg : String)
  | VerificationError (msg : String)
deriving DecidableEq, Repr

/-- Byte buffers are lists of byte values. -/
abbrev Bytes := List Nat

/-- Models the Rust slice expression `&raw[a..b]`. -/
def slice (l : Bytes) (a b : Nat) : Bytes :=
  (l.drop a).take (b - a)

/-! ## Binary report codec (`src/tdx/report.rs`, constants from `src/tdx/mod.rs`) -/

/-- `TDX_REPORT_DATA_LEN` from `src/tdx/mod.rs`. -/
def TDX_REPORT_DATA_LEN : Nat := 64

/-- `TDX_MR_REG_LEN` from `src/tdx/mod.rs`. -/
def TDX_MR_REG_LEN : Nat := 48

def REPORT_MAC_STRUCT_LEN : Nat := 256
def TEE_TCB_INFO_LEN : Nat := 239
def TDREPORT_RESERVED_LEN : Nat := 17
def TD_INFO_LEN : Nat := 512

/-- The length of the TDREPORT (1024 bytes). -/
def TDREPORT_LEN : Nat :=
  REPORT_MAC_STRUCT_LEN + TEE_TCB_INFO_LEN + TDREPORT_RESERVED_LEN + TD_INFO_LEN

/-- The length of a TDREPORT request (1088 bytes). -/
def TDREPORT_REQ_LEN : Nat := TDX_REPORT_DATA_LEN + TDREPORT_LEN

/-- `ReportMacStruct` from `src/tdx/report.rs`. -/
structure ReportMacStruct where
  report_type : Bytes
  reserved1 : Bytes
  cpusvn : Bytes
  tee_tcb_info_hash : Bytes
  tee_info_hash : Bytes
  report_data : Bytes
  reserved2 : Bytes
  mac : Bytes
deriving DecidableEq, Repr

def ReportMacStruct.new : ReportMacStruct where
  report_type := List.replicate 8 0
  reserved1 := List.replicate 8 0
  cpusvn := List.replicate 16 0
  tee_tcb_info_hash := List.replicate 48 0
  tee_info_hash := List.replicate 48 0
  report_data := List.replicate 64 0
  reserved2 := List.replicate 32 0
  mac := List.replicate 32 0

/-- `ReportMacStruct::from_bytes`.  The Rust method mutates `self`, but it
overwrites every field, so it is embedded as a function returning the new
value (the receiver is irrelevant).  Offsets are the running-offset values
of the source: 0, 8, 16, 32, 80, 128, 192, 224. -/
def ReportMacStruct.from_bytes (_self : ReportMacStruct) (raw_bytes : Bytes) :
    Except Error ReportMacStruct :=
  if raw_bytes.length ≠ REPORT_MAC_STRUCT_LEN then
    .error (.ParseError "ReportMacStruct length is wrong")
  else
    .ok { report_type := slice raw_bytes 0 8
          reserved1 := slice raw_bytes 8 16
          cpusvn := slice raw_bytes 16 32
          tee_tcb_info_hash := slice raw_bytes 32 80
          tee_info_hash := slice raw_bytes 80 128
          report_data := slice raw_bytes 128 192
          reserved2 := slice raw_bytes 192 224
          mac := slice raw_bytes 224 256 }

/-- `TeeTcbInfo` from `src/tdx/report.rs`. -/
structure TeeTcbInfo where
  valid : Bytes
  tee_tcb_svn : Bytes
  mrseam : Bytes
  mrsignerseam : Bytes
  attributes : Bytes
  tee_tcb_svn2 : Bytes
  reserved : Bytes
deriving DecidableEq, Repr

def TeeTcbInfo.new : TeeTcbInfo where
  valid := List.replicate 8 0
  tee_tcb_svn := List.replicate 16 0
  mrseam := List.replicate 48 0
  mrsignerseam := List.replicate 48 0
  attributes := List.replicate 8 0
  tee_tcb_svn2 := List.replicate 16 0
  reserved := List.replicate 95 0

/-- `TeeTcbInfo::from_bytes`; running offsets 0, 8, 24, 72, 120, 128, 144. -/
def TeeTcbInfo.from_bytes (_self : TeeTcbInfo) (raw_bytes : Bytes) :
    Except Error TeeTcbInfo :=
  if raw_bytes.length ≠ TEE_TCB_INFO_LEN then
    .error (.ParseError "TeeTcbInfo length is wrong")
  else
    .ok { valid := slice raw_bytes 0 8
          tee_tcb_svn := slice raw_bytes 8 24
          mrseam := slice raw_bytes 24 72
          mrsignerseam := slice raw_bytes 72 120
          attributes := slice raw_bytes 120 128
          tee_tcb_svn2 := slice raw_bytes 128 144
          reserved := slice raw_bytes 144 239 }

/-- `TdInfo` from `src/tdx/report.rs`. -/
structure TdInfo where
  attributes : Bytes
  xfam : Bytes
  mrtd : Bytes
  mrconfigid : Bytes
  mrowner : Bytes
  mrownerconfig : Bytes
  rtmr0 : Bytes
  rtmr1 : Bytes
  rtmr2 : Bytes
  rtmr3 : Bytes
  servtd_hash : Bytes
  reserved : Bytes
deriving DecidableEq, Repr

def TdInfo.new : TdInfo where
  attributes := List.replicate 8 0
  xfam := List.replicate 8 0
  mrtd := List.replicate 48 0
  mrconfigid := List.replicate 48 0
  mrowner := List.replicate 48 0
  mrownerconfig := List.replicate 48 0
  rtmr0 := List.replicate 48 0
  rtmr1 := List.replicate 48 0
  rtmr2 := List.replicate 48 0
  rtmr3 := List.replicate 48 0
  servtd_hash := List.replicate 48 0
  reserved := List.replicate 64 0

/-- `TdInfo::from_bytes`; running offsets 0, 8, 16, 64, 112, 160, 208, 256,
304, 352, 400, 448. -/
def TdInfo.from_bytes (_self : TdInfo) (raw_bytes : Bytes) :
    Except Error TdInfo :=
  if raw_bytes.length ≠ TD_INFO_LEN then
    .error (.ParseError "TdInfo length is wrong")
  else
    .ok { attributes := slice raw_bytes 0 8
          xfam := slice raw_bytes 8 16
          mrtd := slice raw_bytes 16 64
          mrconfigid := slice raw_bytes 64 112
          mrowner := slice raw_bytes 112 160
          mrownerconfig := slice raw_bytes 160 208
          rtmr0 := slice raw_bytes 208 256
          rtmr1 := slice raw_bytes 256 304
          rtmr2 := slice raw_bytes 304 352
          rtmr3 := slice raw_bytes 352 400
          servtd_hash := slice raw_bytes 400 448
          reserved := slice raw_bytes 448 512 }

/-- `TdReportV15` from `src/tdx/report.rs`. -/
structure TdReportV15 where
  report_mac_struct : ReportMacStruct
  tee_tcb_info : TeeTcbInfo
  reserved : Bytes
  td_info : TdInfo
deriving DecidableEq, Repr

def TdReportV15.new : TdReportV15 where
  report_mac_struct := ReportMacStruct.new
  tee_tcb_info := TeeTcbInfo.new
  reserved := List.replicate TDREPORT_RESERVED_LEN 0
  td_info := TdInfo.new

/-- `TdReportV15::from_bytes`; the sub-slices follow the source's running
offset: 0..256 (ReportMacStruct), 256..495 (TeeTcbInfo), 495..512
(reserved), 512..1024 (TdInfo). -/
def TdReportV15.from_bytes (self : TdReportV15) (raw_bytes : Bytes) :
    Except Error TdReportV15 :=
  if raw_bytes.length ≠ TDREPORT_LEN then
    .error (.ParseError "TdReport length is wrong")
  else
    match self.report_mac_struct.from_bytes (slice raw_bytes 0 REPORT_MAC_STRUCT_LEN) with
    | .error e => .error e
    | .ok rms =>
      match self.tee_tcb_info.from_bytes
          (slice raw_bytes REPORT_MAC_STRUCT_LEN (REPORT_MAC_STRUCT_LEN + TEE_TCB_INFO_LEN)) with
      | .error e => .error e
      | .ok tti =>
        match self.td_info.from_bytes
            (slice raw_bytes (REPORT_MAC_STRUCT_LEN + TEE_TCB_INFO_LEN + TDREPORT_RESERVED_LEN)
              TDREPORT_LEN) with
        | .error e => .error e
        | .ok ti =>
          .ok { report_mac_struct := rms
                tee_tcb_info := tti
                reserved := slice raw_bytes (REPORT_MAC_STRUCT_LEN + TEE_TCB_INFO_LEN)
                  (REPORT_MAC_STRUCT_LEN + TEE_TCB_INFO_LEN + TDREPORT_RESERVED_LEN)
                td_info := ti }

/-- `TdReportV15::create_request`: a zeroed `TDREPORT_REQ_LEN` buffer whose
leading `report_data.length` bytes are overwritten with `report_data`
(`req[..TDX_REPORT_DATA_LEN].copy_from_slice(report_data)`; the argument
type `[u8; 64]` fixes that length to 64). -/
def TdReportV15.create_request (report_data : Bytes) : Bytes :=
  let req : Bytes := List.replicate TDREPORT_REQ_LEN 0
  report_data ++ req.drop report_data.length

/-- `TdReportV15::get_tdreport_from_bytes` (argument type `[u8; 1088]`). -/
def TdReportV15.get_tdreport_from_bytes (raw_bytes : Bytes) : Except Error TdReportV15 :=
  let tdreport := TdReportV15.new
  let report_bytes := raw_bytes.drop TDX_REPORT_DATA_LEN
  tdreport.from_bytes report_bytes

/-- `TdReportV15::get_mrtd`. -/
def TdReportV15.get_mrtd (self : TdReportV15) : Bytes :=
  self.td_info.mrtd

/-! ## Signature verification (`src/verification/signature.rs`)

The openssl `Verifier` calls are modelled by a record of their outcomes for
the given key, data and signature.  Per the rust-openssl contract (and this
repository's own test `test_verify_signature_sh256_rsa_pss_fail`),
`Verifier::verify` returns `Ok(true)` when the signature matches,
`Ok(false)` when the verification mechanics succeed but the signature does
not match, and `Err` when the operation itself fails; the `verify` field
records that three-way outcome. -/

/-- Outcomes of the openssl calls made by `verify_signature_sha256_rsa_pss`
for one particular (key, data, signature) triple. -/
structure VerifierApi where
  new_verifier : Except String Unit
  set_rsa_padding : Except String Unit
  set_rsa_pss_saltlen : Except String Unit
  set_rsa_mgf1_md : Except String Unit
  update : Except String Unit
  verify : Except String Bool

/-- `verify_signature_sha256_rsa_pss` from `src/verification/signature.rs`. -/
def verify_signature_sha256_rsa_pss (api : VerifierApi) (data signature : Bytes) :
    Except Error Bool :=
  if data.isEmpty then
    .error (.SignatureError "Empty data provided for verification")
  else if signature.isEmpty then
    .error (.SignatureError "Empty signature provided for verification")
  else
    match api.new_verifier with
    | .error e => .error (.SignatureError ("Failed to create verifier: " ++ e))
    | .ok _ =>
      match api.set_rsa_padding with
      | .error e => .error (.SignatureError ("Failed to set RSA padding: " ++ e))
      | .ok _ =>
        match api.set_rsa_pss_saltlen with
        | .error e => .error (.SignatureError ("Failed to set PSS salt length: " ++ e))
        | .ok _ =>
          match api.set_rsa_mgf1_md with
          | .error e => .error (.SignatureError ("Failed to set MGF1 hash: " ++ e))
          | .ok _ =>
            match api.update with
            | .error e => .error (.SignatureError ("Failed to update verifier with data: " ++ e))
            | .ok _ =>
              match api.verify with
              | .error e => .error (.VerificationError ("Signature verification failed: " ++ e))
              | .ok b => .ok b

/-- A `VerifierApi` whose setup calls all succeed and whose final `verify`
has the given three-way outcome. -/
def mkVerifierApi (v : Except String Bool) : VerifierApi where
  new_verifier := .ok ()
  set_rsa_padding := .ok ()
  set_rsa_pss_saltlen := .ok ()
  set_rsa_mgf1_md := .ok ()
  update := .ok ()
  verify := v

/-! ## X.509 utilities (`src/verification/x509.rs`)

Certificates and public keys are opaque openssl handles; the openssl calls
on them (`issued`, `public_key`, `X509::verify`, `X509::from_der`) are
modelled by an environment of functions on the handles.  As with the
signature verifier, `X509::verify` returns `Ok(false)` for a mechanically
sound but non-validating signature and `Err` only when the operation itself
fails. -/

/-- Opaque handle for an openssl `X509` certificate. -/
structure X509 where
  id : Nat
deriving DecidableEq, Repr

/-- Opaque handle for an openssl `PKey<Public>`. -/
structure PKeyPublic where
  id : Nat
deriving DecidableEq, Repr

/-- Outcomes of the openssl X.509 calls. `issued_ok a b` models
`a.issued(&b) == X509VerifyResult::OK`; `public_key c` models
`c.public_key()`; `x509_verify c k` models `c.verify(&k)`. -/
structure X509Env where
  issued_ok : X509 → X509 → Bool
  public_key : X509 → Except String PKeyPublic
  x509_verify : X509 → PKeyPublic → Except String Bool

/-- `get_x509_pubkey` from `src/verification/x509.rs`. -/
def get_x509_pubkey (env : X509Env) (cert : X509) : Except Error PKeyPublic :=
  match env.public_key cert with
  | .error e => .error (.SignatureError e)
  | .ok k => .ok k

/-- `verify_x509_cert` from `src/verification/x509.rs`. -/
def verify_x509_cert (env : X509Env) (cert issuer_cert : X509) : Except Error Bool :=
  if env.issued_ok issuer_cert cert then
    match get_x509_pubkey env issuer_cert with
    | .error e => .error e
    | .ok issuer_pkey =>
      match env.x509_verify cert issuer_pkey with
      | .error e => .error (.VerificationError e)
      | .ok b => .ok b
  else
    .error (.VerificationError "Cert issuer verification failed")

/-! ## Filesystem model

`PathState` records what the filesystem says about one path at the time it
is inspected.  `fs_exists` is the outcome of `std::fs::exists` (which
traverses symlinks, so a symlink to a missing target yields `Ok(false)`);
`path_exists` is `Path::exists()` (same traversal, errors swallowed to
`false`); `is_symlink` is `Path::is_symlink()` (no traversal); `read_file`
is the outcome of opening the file and reading it to the end; `display` is
the path's display string used in error messages. -/

structure PathState where
  fs_exists : Except String Bool
  path_exists : Bool
  is_symlink : Bool
  read_file : Except String Bytes
  display : String

/-- Outcome of `X509::from_der` on each byte string. -/
structure DerOracle where
  from_der : Bytes → Except String X509

/-- `x509_from_der_bytes` from `src/verification/x509.rs`. -/
def x509_from_der_bytes (o : DerOracle) (der_bytes : Bytes) : Except Error X509 :=
  match o.from_der der_bytes with
  | .error e => .error (.ParseError e)
  | .ok c => .ok c

/-- `load_x509_der` from `src/verification/x509.rs`: rejects a symlink whose
target exists, otherwise opens and reads the file (`File::open`/`read_to_end`
errors become `IoError` via `#[from]`) and parses the DER bytes. -/
def load_x509_der (o : DerOracle) (st : PathState) : Except Error X509 :=
  if st.path_exists ∧ st.is_symlink then
    .error (.NotSupported ("Path " ++ st.display ++ " is a symlink"))
  else
    match st.read_file with
    | .error e => .error (.IoError e)
    | .ok cert_bytes => x509_from_der_bytes o cert_bytes

/-! ## TDX KVM device (`src/tdx/linux/device.rs`) -/

/-- `TDX15_DEV_PATH` from `src/tdx/linux/device.rs`. -/
def TDX15_DEV_PATH : String := "/dev/tdx_guest"

/-- `TdxDeviceKvmV15` from `src/tdx/linux/device.rs`. -/
structure TdxDeviceKvmV15 where
  device_path : String
deriving DecidableEq, Repr

/-- `TdxDeviceKvmV15::is_available`, over the state of `/dev/tdx_guest`. -/
def TdxDeviceKvmV15.is_available (st : PathState) : Except Error Bool :=
  match st.fs_exists with
  | .error e => .error (.NotSupported e)
  | .ok available =>
    if available then
      if st.is_symlink then
        .error (.NotSupported ("Path " ++ TDX15_DEV_PATH ++ " is a symlink"))
      else
        .ok available
    else
      .ok available

/-- `TdxDeviceKvmV15::new`. -/
def TdxDeviceKvmV15.new (st : PathState) : TdxDeviceKvmV15 :=
  match TdxDeviceKvmV15.is_available st with
  | .ok true => { device_path := TDX15_DEV_PATH }
  | _ => { device_path := "" }

/-- Outcomes of the device accesses made by `get_tdreport_raw`: opening the
device read-write, and the `TDX_CMD_GET_REPORT0_V1_5` ioctl (whose error
carries the formatted errno text, and whose success is the response buffer
the ioctl wrote in place of the request). -/
structure DeviceOracle where
  open_rw : Except String Unit
  ioctl : Bytes → Except String Bytes

/-- `TdxDeviceKvmV15::get_tdreport_raw` (argument type `[u8; 1088]`). -/
def TdxDeviceKvmV15.get_tdreport_raw (self : TdxDeviceKvmV15) (dev : DeviceOracle)
    (req : Bytes) : Except Error Bytes :=
  if self.device_path.isEmpty then
    .error (.NotSupported "TDX 1.5 KVM device is not supported")
  else
    match dev.open_rw with
    | .error e =>
      .error (.QuoteError ("Failed to open TDX device at " ++ self.device_path ++ ": " ++ e))
    | .ok _ =>
      match dev.ioctl req with
      | .error e => .error (.QuoteError ("IOCTL failed with errno " ++ e))
      | .ok resp => .ok resp

/-! ## GCP launch endorsement (`src/gcp/tdx/mod.rs`)

The endorsement message types live in `gcp/endorsement.rs`, which is
generated at build time from Google's protobufs and is not part of the
checked-in sources; they are modelled from the spec below.  A call of
`verify_launch_endorsement` that indexes past the end of the measurement
list panics in Rust, so the embedding's result type has an explicit
out-of-bounds outcome alongside `Ok`/`Err`. -/

/-- Result of a Rust computation that can also end the process abnormally
(an out-of-range `Vec` index). -/
inductive Outcome (α : Type) where
  | ok (a : α)
  | err (e : Error)
  | indexOutOfBounds
deriving DecidableEq, Repr

/-- Modelled from the spec: one entry of the golden measurement's nested TDX
measurement list, carrying the endorsed `MRTD` value (the `mrtd` field the
source reads; the generated `endorsement.rs` is not under `src/`). -/
structure VMTdxMeasurement where
  mrtd : Bytes

/-- Modelled from the spec: the golden measurement's TDX section, holding
the list of measurement entries the source indexes. -/
structure VMTdxSection where
  measurements : List VMTdxMeasurement

/-- Modelled from the spec: the "golden measurement" sub-payload, containing
the endorsed measurements and the signing certificate (`cert`) used for the
chain-of-trust check. -/
structure VMGoldenMeasurement where
  cert : Bytes
  tdx : VMTdxSection

/-- Modelled from the spec: the endorsement envelope, containing the
serialized golden-measurement blob and a signature over it. -/
structure VMLaunchEndorsement where
  serialized_uefi_golden : Bytes
  signature : Bytes

/-- `GcpTdxHost` from `src/gcp/tdx/mod.rs`. -/
structure GcpTdxHost where
  mrtd : Bytes

/-- The external world of one `verify_launch_endorsement` call: the
endorsement fetch (`retrieve_launch_endorsement`, covering the `gcloud`
invocation and the envelope protobuf parse), the golden-measurement
protobuf parse, the openssl X.509 calls, the state of the root-certificate
file, DER parsing, and the openssl verifier for the endorsement
signature. -/
structure GcpEnv where
  retrieve : Except Error VMLaunchEndorsement
  parse_golden : Bytes → Except String VMGoldenMeasurement
  cert_env : X509Env
  root_cert_path : PathState
  der : DerOracle
  verifier_api : VerifierApi

/-- `GcpTdxHost::verify_launch_endorsement_signing_cert`. -/
def GcpTdxHost.verify_launch_endorsement_signing_cert (env : GcpEnv)
    (golden : VMGoldenMeasurement) : Except Error Bool :=
  match load_x509_der env.der env.root_cert_path with
  | .error e => .error e
  | .ok gcp_root_cert =>
    match x509_from_der_bytes env.der golden.cert with
    | .error e => .error e
    | .ok signing_cert => verify_x509_cert env.cert_env signing_cert gcp_root_cert

/-- `GcpTdxHost::verify_launch_endorsement_sig`.  (The verifier outcomes in
`env.verifier_api` stand for the openssl calls made with the public key
extracted from `signing_cert`.) -/
def GcpTdxHost.verify_launch_endorsement_sig (env : GcpEnv)
    (endorsement : VMLaunchEndorsement) (signing_cert : Bytes) : Except Error Bool :=
  match x509_from_der_bytes env.der signing_cert with
  | .error e => .error e
  | .ok cert_x509 =>
    match get_x509_pubkey env.cert_env cert_x509 with
    | .error e => .error e
    | .ok _signing_key =>
      verify_signature_sha256_rsa_pss env.verifier_api
        endorsement.serialized_uefi_golden endorsement.signature

/-- `GcpTdxHost::verify_launch_endorsement` (the `TeeHost` impl in
`src/gcp/tdx/mod.rs`).  `uefi_golden.tdx.measurements[0]` panics when the
list is empty, which the embedding records as `.indexOutOfBounds`. -/
def GcpTdxHost.verify_launch_endorsement (self : GcpTdxHost) (env : GcpEnv) :
    Outcome Bool :=
  match env.retrieve with
  | .error e => .err e
  | .ok launch_endorsement =>
    match env.parse_golden launch_endorsement.serialized_uefi_golden with
    | .error e => .err (.ParseError e)
    | .ok uefi_golden =>
      match GcpTdxHost.verify_launch_endorsement_signing_cert env uefi_golden with
      | .error e => .err e
      | .ok valid_cert =>
        if !valid_cert then
          .err (.SignatureError "Invalid launch endorsement signing cert")
        else
          match GcpTdxHost.verify_launch_endorsement_sig env launch_endorsement
              uefi_golden.cert with
          | .error e => .err e
          | .ok valid_sig =>
            if !valid_sig then
              .err (.SignatureError "Invalid launch endorsement signature")
            else
              match uefi_golden.tdx.measurements with
              | [] => .indexOutOfBounds
              | m0 :: _ => .ok (decide (m0.mrtd = self.mrtd))

/-! ## Concrete environments and path states used as witness inputs -/

/-- An `X509Env` in which the issuer linkage holds, the issuer's public key
extracts cleanly, and the certificate-signature validation call itself
errors. -/
def sigFailX509Env : X509Env where
  issued_ok := fun _ _ => true
  public_key := fun _ => .ok ⟨0⟩
  x509_verify := fun _ _ => .error "certificate signature check errored"

/-- A DER oracle that parses every byte string. -/
def trivialDer : DerOracle where
  from_der := fun _ => .ok ⟨0⟩

/-- The state of a symbolic link whose target does not exist: existence
probes traverse the link and report `false`, and opening it fails. -/
def brokenSymlink : PathState where
  fs_exists := .ok false
  path_exists := false
  is_symlink := true
  read_file := .error "No such file or directory (os error 2)"
  display := "/dev/tdx_guest"

/-- The state of a symbolic link whose target exists. -/
def liveSymlink : PathState where
  fs_exists := .ok true
  path_exists := true
  is_symlink := true
  read_file := .ok []
  display := "/dev/tdx_guest"

/-- The state of a path that simply does not exist. -/
def missingPath : PathState where
  fs_exists := .ok false
  path_exists := false
  is_symlink := false
  read_file := .error "No such file or directory (os error 2)"
  display := "/dev/tdx_guest"

/-- The state of an ordinary regular file readable as `bytes`. -/
def regularFile (bytes : Bytes) : PathState where
  fs_exists := .ok true
  path_exists := true
  is_symlink := false
  read_file := .ok bytes
  display := "GCE-cc-tcb-root_1.crt"

/-- A `GcpEnv` whose fetch and parses succeed and whose X.509 chain check
completes with `false` (mechanically sound, not validating). -/
def certFailGcpEnv : GcpEnv where
  retrieve := .ok { serialized_uefi_golden := [7], signature := [8] }
  parse_golden := fun _ => .ok { cert := [9], tdx := { measurements := [] } }
  cert_env := { issued_ok := fun _ _ => true
                public_key := fun _ => .ok ⟨0⟩
                x509_verify := fun _ _ => .ok false }
  root_cert_path := regularFile []
  der := trivialDer
  verifier_api := mkVerifierApi (.ok true)

/-- A `GcpEnv` whose fetch, parses, certificate-chain check and signature
check all succeed, but whose golden measurement carries an empty TDX
measurement list. -/
def emptyMeasGcpEnv : GcpEnv where
  retrieve := .ok { serialized_uefi_golden := [7], signature := [8] }
  parse_golden := fun _ => .ok { cert := [9], tdx := { measurements := [] } }
  cert_env := { issued_ok := fun _ _ => true
                public_key := fun _ => .ok ⟨0⟩
                x509_verify := fun _ _ => .ok true }
  root_cert_path := regularFile []
  der := trivialDer
  verifier_api := mkVerifierApi (.ok true)

/-! ## Helper lemmas about byte slices and the sub-structure parsers -/

theorem slice_length (l : Bytes) (a b : Nat) :
    (slice l a b).length = min (b - a) (l.length - a) := by
  simp [slice]

theorem slice_slice (l : Bytes) (a b c d : Nat) (h : d ≤ b - a) :
    slice (slice l a b) c d = slice l (a + c) (a + d) := by
  simp only [slice, List.drop_take, List.drop_drop, List.take_take]
  congr 1
  omega

theorem slice_drop (l : Bytes) (n a b : Nat) :
    slice (l.drop n) a b = slice l (n + a) (n + b) := by
  simp only [slice, List.drop_drop]
  congr 1
  omega

theorem reportMacStruct_parse_exact (s : ReportMacStruct) (raw : Bytes)
    (h : raw.length = 256) :
    s.from_bytes raw
      = .ok { report_type := slice raw 0 8
              reserved1 := slice raw 8 16
              cpusvn := slice raw 16 32
              tee_tcb_info_hash := slice raw 32 80
              tee_info_hash := slice raw 80 128
              report_data := slice raw 128 192
              reserved2 := slice raw 192 224
              mac := slice raw 224 256 } := by
  simp [ReportMacStruct.from_bytes, REPORT_MAC_STRUCT_LEN, h]

theorem teeTcbInfo_parse_exact (s : TeeTcbInfo) (raw : Bytes)
    (h : raw.length = 239) :
    s.from_bytes raw
      = .ok { valid := slice raw 0 8
              tee_tcb_svn := slice raw 8 24
              mrseam := slice raw 24 72
              mrsignerseam := slice raw 72 120
              attributes := slice raw 120 128
              tee_tcb_svn2 := slice raw 128 144
              reserved := slice raw 144 239 } := by
  simp [TeeTcbInfo.from_bytes, TEE_TCB_INFO_LEN, h]

theorem tdInfo_parse_exact (s : TdInfo) (raw : Bytes)
    (h : raw.length = 512) :
    s.from_bytes raw
      = .ok { attributes := slice raw 0 8
              xfam := slice raw 8 16
              mrtd := slice raw 16 64
              mrconfigid := slice raw 64 112
              mrowner := slice raw 112 160
              mrownerconfig := slice raw 160 208
              rtmr0 := slice raw 208 256
              rtmr1 := slice raw 256 304
              rtmr2 := slice raw 304 352
              rtmr3 := slice raw 352 400
              servtd_hash := slice raw 400 448
              reserved := slice raw 448 512 } := by
  simp [TdInfo.from_bytes, TD_INFO_LEN, h]

theorem TdReportV15.from_bytes_mrtd (s : TdReportV15) (raw : Bytes)
    (h : raw.length = 1024) :
    ∃ r : TdReportV15, s.from_bytes raw = .ok r ∧ r.td_info.mrtd = slice raw 528 576 := by
  have h1 : (slice raw 0 REPORT_MAC_STRUCT_LEN).length = 256 := by
    simp [slice_length, REPORT_MAC_STRUCT_LEN, h]
  have h2 : (slice raw REPORT_MAC_STRUCT_LEN (REPORT_MAC_STRUCT_LEN + TEE_TCB_INFO_LEN)).length
      = 239 := by
    simp [slice_length, REPORT_MAC_STRUCT_LEN, TEE_TCB_INFO_LEN, h]
  have h3 : (slice raw (REPORT_MAC_STRUCT_LEN + TEE_TCB_INFO_LEN + TDREPORT_RESERVED_LEN)
      TDREPORT_LEN).length = 512 := by
    simp [slice_length, REPORT_MAC_STRUCT_LEN, TEE_TCB_INFO_LEN, TDREPORT_RESERVED_LEN,
      TD_INFO_LEN, TDREPORT_LEN, h]
  rw [TdReportV15.from_bytes,
    if_neg (by simp [TDREPORT_LEN, REPORT_MAC_STRUCT_LEN, TEE_TCB_INFO_LEN,
      TDREPORT_RESERVED_LEN, TD_INFO_LEN, h]),
    reportMacStruct_parse_exact _ _ h1, teeTcbInfo_parse_exact _ _ h2,
    tdInfo_parse_exact _ _ h3]
  refine ⟨_, rfl, ?_⟩
  show slice (slice raw (REPORT_MAC_STRUCT_LEN + TEE_TCB_INFO_LEN + TDREPORT_RESERVED_LEN)
    TDREPORT_LEN) 16 64 = slice raw 528 576
  rw [slice_slice _ _ _ _ _ (by simp [TDREPORT_LEN, REPORT_MAC_STRUCT_LEN, TEE_TCB_INFO_LEN,
    TDREPORT_RESERVED_LEN, TD_INFO_LEN])]
  simp [REPORT_MAC_STRUCT_LEN, TEE_TCB_INFO_LEN, TDREPORT_RESERVED_LEN]

/-! ## The claims -/

/-- C2: for every byte buffer whose length differs from the exact expected
length of the target sub-structure (256 for `ReportMacStruct`, 239 for
`TeeTcbInfo`, 512 for `TdInfo`, 1024 for the full `TdReportV15`), the
corresponding `from_bytes` parse returns a `ParseError` (so no truncated or
zero-padded structure is ever produced). -/
theorem C2_exact_length_parse (rms : ReportMacStruct) (tti : TeeTcbInfo)
    (ti : TdInfo) (r : TdReportV15) (raw : Bytes) :
    (raw.length ≠ 256 →
      rms.from_bytes raw = .error (.ParseError "ReportMacStruct length is wrong")) ∧
    (raw.length ≠ 239 →
      tti.from_bytes raw = .error (.ParseError "TeeTcbInfo length is wrong")) ∧
    (raw.length ≠ 512 →
      ti.from_bytes raw = .error (.ParseError "TdInfo length is wrong")) ∧
    (raw.length ≠ 1024 →
      r.from_bytes raw = .error (.ParseError "TdReport length is wrong")) := by
  refine ⟨fun h => ?_, fun h => ?_, fun h => ?_, fun h => ?_⟩ <;>
    simp [ReportMacStruct.from_bytes, TeeTcbInfo.from_bytes, TdInfo.from_bytes,
      TdReportV15.from_bytes, REPORT_MAC_STRUCT_LEN, TEE_TCB_INFO_LEN, TD_INFO_LEN,
      TDREPORT_RESERVED_LEN, TDREPORT_LEN, h]

/-- Witness for C2 at the empty buffer. -/
theorem C2_exact_length_parse_witness :
    ReportMacStruct.new.from_bytes []
        = .error (.ParseError "ReportMacStruct length is wrong") ∧
    TeeTcbInfo.new.from_bytes [] = .error (.ParseError "TeeTcbInfo length is wrong") ∧
    TdInfo.new.from_bytes [] = .error (.ParseError "TdInfo length is wrong") ∧
    TdReportV15.new.from_bytes [] = .error (.ParseError "TdReport length is wrong") := by
  obtain ⟨h1, h2, h3, h4⟩ :=
    C2_exact_length_parse ReportMacStruct.new TeeTcbInfo.new TdInfo.new TdReportV15.new []
  exact ⟨h1 (by decide), h2 (by decide), h3 (by decide), h4 (by decide)⟩

/-- C3: every 1088-byte request buffer parses successfully with
`get_tdreport_from_bytes`, and the parsed report's `get_mrtd` is exactly
the 48 bytes at offsets 592..640 of the input buffer. -/
theorem C3_mrtd_offsets (raw : Bytes) (h : raw.length = 1088) :
    ∃ report : TdReportV15,
      TdReportV15.get_tdreport_from_bytes raw = .ok report ∧
      report.get_mrtd = slice raw 592 640 := by
  have hd : (raw.drop TDX_REPORT_DATA_LEN).length = 1024 := by
    simp [TDX_REPORT_DATA_LEN, h]
  obtain ⟨r, hr, hm⟩ := TdReportV15.from_bytes_mrtd TdReportV15.new _ hd
  refine ⟨r, ?_, ?_⟩
  · simpa [TdReportV15.get_tdreport_from_bytes] using hr
  · rw [TdReportV15.get_mrtd, hm, slice_drop]
    simp [TDX_REPORT_DATA_LEN]

/-- Witness for C3 at the all-zero request buffer. -/
theorem C3_mrtd_offsets_witness :
    (List.replicate 1088 0).length = 1088 ∧
    ∃ report : TdReportV15,
      TdReportV15.get_tdreport_from_bytes (List.replicate 1088 0) = .ok report ∧
      report.get_mrtd = slice (List.replicate 1088 0) 592 640 :=
  ⟨by simp, C3_mrtd_offsets (List.replicate 1088 0) (by simp)⟩

/-- C9: for every 64-byte `report_data`, `create_request` returns a
1088-byte buffer whose first 64 bytes equal `report_data` and whose
trailing 1024 bytes are all zero. -/
theorem C9_create_request_shape (report_data : Bytes) (h : report_data.length = 64) :
    (TdReportV15.create_request report_data).length = 1088 ∧
    (TdReportV15.create_request report_data).take 64 = report_data ∧
    (TdReportV15.create_request report_data).drop 64 = List.replicate 1024 0 := by
  have hreq : TdReportV15.create_request report_data
      = report_data ++ List.replicate 1024 0 := by
    simp [TdReportV15.create_request, TDREPORT_REQ_LEN, TDX_REPORT_DATA_LEN, TDREPORT_LEN,
      REPORT_MAC_STRUCT_LEN, TEE_TCB_INFO_LEN, TDREPORT_RESERVED_LEN, TD_INFO_LEN, h]
  rw [hreq]
  exact ⟨by simp [h], List.take_left' h, List.drop_left' h⟩

/-- Witness for C9 at a concrete all-ones report-data value. -/
theorem C9_create_request_shape_witness :
    (List.replicate 64 1).length = 64 ∧
    (TdReportV15.create_request (List.replicate 64 1)).length = 1088 ∧
    (TdReportV15.create_request (List.replicate 64 1)).take 64 = List.replicate 64 1 ∧
    (TdReportV15.create_request (List.replicate 64 1)).drop 64 = List.replicate 1024 0 :=
  ⟨by simp, C9_create_request_shape (List.replicate 64 1) (by simp)⟩

/-- C8: with empty `data` or empty `signature`,
`verify_signature_sha256_rsa_pss` fails with `SignatureError` whatever the
openssl outcomes are — the result is the same for any two `VerifierApi`
oracles, so no verifier construction or cryptographic operation can have
contributed, and the key's validity is irrelevant. -/
theorem C8_empty_input_rejection (api api2 : VerifierApi) (data signature : Bytes)
    (h : data = [] ∨ signature = []) :
    (∃ msg, verify_signature_sha256_rsa_pss api data signature
        = .error (.SignatureError msg)) ∧
    verify_signature_sha256_rsa_pss api data signature
      = verify_signature_sha256_rsa_pss api2 data signature := by
  rcases h with h | h
  · subst h
    exact ⟨⟨"Empty data provided for verification",
        by simp [verify_signature_sha256_rsa_pss]⟩,
      by simp [verify_signature_sha256_rsa_pss]⟩
  · subst h
    by_cases hd : data = []
    · subst hd
      exact ⟨⟨"Empty data provided for verification",
          by simp [verify_signature_sha256_rsa_pss]⟩,
        by simp [verify_signature_sha256_rsa_pss]⟩
    · exact ⟨⟨"Empty signature provided for verification",
          by simp [verify_signature_sha256_rsa_pss, hd]⟩,
        by simp [verify_signature_sha256_rsa_pss, hd]⟩

/-- Witness for C8: empty data against two different oracles. -/
theorem C8_empty_input_rejection_witness :
    (∃ msg, verify_signature_sha256_rsa_pss (mkVerifierApi (.ok true)) [] [1]
        = .error (.SignatureError msg)) ∧
    verify_signature_sha256_rsa_pss (mkVerifierApi (.ok true)) [] [1]
      = verify_signature_sha256_rsa_pss (mkVerifierApi (.error "broken key")) [] [1] :=
  C8_empty_input_rejection (mkVerifierApi (.ok true)) (mkVerifierApi (.error "broken key"))
    [] [1] (.inl rfl)

/-- C5 counterexample: non-empty data and signature, every verifier
mechanic succeeds, and the signature does not match (openssl verify
outcome `Ok(false)`): the function returns `Ok(false)` — not a
`VerificationError`, which only arises when the verify call itself
errors. -/
theorem C5_counterexample :
    verify_signature_sha256_rsa_pss (mkVerifierApi (.ok false)) [1] [2] = .ok false := by
  rfl

/-- C5 (amended): with non-empty inputs and all verifier mechanics
succeeding, a match outcome `b` from openssl is returned as `Ok b` (so a
non-matching signature yields `Ok(false)`), and `VerificationError` is
produced exactly when the openssl verify call itself errors. -/
theorem C5_amended_verify_outcome (api : VerifierApi) (data signature : Bytes)
    (hd : data ≠ []) (hs : signature ≠ [])
    (h1 : api.new_verifier = .ok ()) (h2 : api.set_rsa_padding = .ok ())
    (h3 : api.set_rsa_pss_saltlen = .ok ()) (h4 : api.set_rsa_mgf1_md = .ok ())
    (h5 : api.update = .ok ()) :
    (∀ b, api.verify = .ok b →
      verify_signature_sha256_rsa_pss api data signature = .ok b) ∧
    (∀ e, api.verify = .error e →
      verify_signature_sha256_rsa_pss api data signature
        = .error (.VerificationError ("Signature verification failed: " ++ e))) := by
  refine ⟨fun b hb => ?_, fun e he => ?_⟩ <;>
    simp [verify_signature_sha256_rsa_pss, hd, hs, h1, h2, h3, h4, h5, *]

/-- Witness for the amended C5 at a concrete mismatch. -/
theorem C5_amended_verify_outcome_witness :
    verify_signature_sha256_rsa_pss (mkVerifierApi (.ok false)) [3] [4] = .ok false :=
  (C5_amended_verify_outcome (mkVerifierApi (.ok false)) [3] [4]
    (by decide) (by decide) rfl rfl rfl rfl rfl).1 false rfl

/-- C4 counterexample: the issuer check passes and the certificate-signature
validation against the issuer's public key fails (the openssl call errors),
yet the result is a `VerificationError`, not the `SignatureError` the claim
requires. -/
theorem C4_counterexample :
    verify_x509_cert sigFailX509Env ⟨0⟩ ⟨1⟩
      = .error (.VerificationError "certificate signature check errored") := by
  rfl

/-- C4 (amended): the issuer-name check always precedes the signature check
and short-circuits with `VerificationError`; once it passes, an erroring
signature validation yields `VerificationError` (not `SignatureError`), a
mechanically clean validation returns its boolean outcome, and
`SignatureError` arises only when extracting the issuer's public key
fails. -/
theorem C4_amended_check_order (env : X509Env) (cert issuer_cert : X509) :
    (env.issued_ok issuer_cert cert = false →
      verify_x509_cert env cert issuer_cert
        = .error (.VerificationError "Cert issuer verification failed")) ∧
    (∀ e, env.issued_ok issuer_cert cert = true →
      env.public_key issuer_cert = .error e →
      verify_x509_cert env cert issuer_cert = .error (.SignatureError e)) ∧
    (∀ k e, env.issued_ok issuer_cert cert = true →
      env.public_key issuer_cert = .ok k →
      env.x509_verify cert k = .error e →
      verify_x509_cert env cert issuer_cert = .error (.VerificationError e)) ∧
    (∀ k b, env.issued_ok issuer_cert cert = true →
      env.public_key issuer_cert = .ok k →
      env.x509_verify cert k = .ok b →
      verify_x509_cert env cert issuer_cert = .ok b) := by
  refine ⟨fun hno => ?_, fun e hyes hk => ?_, fun k e hyes hk hv => ?_,
    fun k b hyes hk hv => ?_⟩ <;>
    simp [verify_x509_cert, get_x509_pubkey, *]

/-- Witness for the amended C4 at the erroring-validation environment. -/
theorem C4_amended_check_order_witness :
    verify_x509_cert sigFailX509Env ⟨2⟩ ⟨3⟩
      = .error (.VerificationError "certificate signature check errored") :=
  (C4_amended_check_order sigFailX509Env ⟨2⟩ ⟨3⟩).2.2.1 ⟨0⟩
    "certificate signature check errored" rfl rfl rfl

/-- C6 counterexample: a broken symbolic link (the link itself exists but
its target does not, so existence probes report `false`).  `is_available`
returns `Ok(false)` and `load_x509_der` fails with an `IoError` — neither
fails with `NotSupported`, refuting the claim for this symlinked path. -/
theorem C6_counterexample :
    brokenSymlink.is_symlink = true ∧
    TdxDeviceKvmV15.is_available brokenSymlink = .ok false ∧
    load_x509_der trivialDer brokenSymlink
      = .error (.IoError "No such file or directory (os error 2)") :=
  ⟨rfl, rfl, rfl⟩

/-- C6 (amended): for every symbolic link whose target exists, both
`is_available` and `load_x509_der` fail with `NotSupported`; a broken
symlink instead yields `Ok(false)` from `is_available` and the underlying
I/O error from `load_x509_der`; in no case does `is_available` report a
symlinked path as available. -/
theorem C6_amended_symlink_rejection (o : DerOracle) (st : PathState)
    (hsym : st.is_symlink = true) :
    (st.fs_exists = .ok true →
      TdxDeviceKvmV15.is_available st
        = .error (.NotSupported ("Path " ++ TDX15_DEV_PATH ++ " is a symlink"))) ∧
    (st.path_exists = true →
      load_x509_der o st
        = .error (.NotSupported ("Path " ++ st.display ++ " is a symlink"))) ∧
    (st.fs_exists = .ok false → TdxDeviceKvmV15.is_available st = .ok false) ∧
    (∀ e, st.path_exists = false → st.read_file = .error e →
      load_x509_der o st = .error (.IoError e)) ∧
    TdxDeviceKvmV15.is_available st ≠ .ok true := by
  refine ⟨fun he => ?_, fun hp => ?_, fun he => ?_, fun e hp hr => ?_, ?_⟩
  · simp [TdxDeviceKvmV15.is_available, he, hsym]
  · simp [load_x509_der, hp, hsym]
  · simp [TdxDeviceKvmV15.is_available, he]
  · simp [load_x509_der, hp, hr]
  · rcases he : st.fs_exists with e | b
    · simp [TdxDeviceKvmV15.is_available, he]
    · cases b <;> simp [TdxDeviceKvmV15.is_available, he, hsym]

/-- Witness for the amended C6 at a symlink whose target exists. -/
theorem C6_amended_symlink_rejection_witness :
    TdxDeviceKvmV15.is_available liveSymlink
      = .error (.NotSupported "Path /dev/tdx_guest is a symlink") ∧
    load_x509_der trivialDer liveSymlink
      = .error (.NotSupported "Path /dev/tdx_guest is a symlink") :=
  ⟨(C6_amended_symlink_rejection trivialDer liveSymlink rfl).1 rfl,
    (C6_amended_symlink_rejection trivialDer liveSymlink rfl).2.1 rfl⟩

/-- C7: construction of a device handle is total; whenever the availability
probe does not report `Ok(true)` (unavailable or erroring), the constructed
handle carries the empty sentinel path, and `get_tdreport_raw` on it fails
with `NotSupported` identically for every device oracle — before any device
access. -/
theorem C7_sentinel_handle (st : PathState) (dev : DeviceOracle) (req : Bytes)
    (h : TdxDeviceKvmV15.is_available st ≠ .ok true) :
    (TdxDeviceKvmV15.new st).device_path = "" ∧
    (TdxDeviceKvmV15.new st).get_tdreport_raw dev req
      = .error (.NotSupported "TDX 1.5 KVM device is not supported") := by
  have hp : (TdxDeviceKvmV15.new st).device_path = "" := by
    unfold TdxDeviceKvmV15.new
    split
    · next heq => exact absurd heq h
    · rfl
  have hval : TdxDeviceKvmV15.new st = ⟨""⟩ := by rw [← hp]
  exact ⟨hp, by rw [hval]; rfl⟩

/-- Witness for C7: the device node is missing, yet a handle is built and
its report call fails fast. -/
theorem C7_sentinel_handle_witness :
    (TdxDeviceKvmV15.new missingPath).device_path = "" ∧
    (TdxDeviceKvmV15.new missingPath).get_tdreport_raw
        ⟨.ok (), fun r => .ok r⟩ (List.replicate 1088 0)
      = .error (.NotSupported "TDX 1.5 KVM device is not supported") :=
  C7_sentinel_handle missingPath ⟨.ok (), fun r => .ok r⟩ (List.replicate 1088 0)
    (by rw [show TdxDeviceKvmV15.is_available missingPath = Except.ok false from rfl]; simp)

/-- C1: once the fetch, the envelope parse and the golden-measurement parse
have succeeded, a certificate-chain check or signature check that completes
with `false` yields `Err(SignatureError ...)`, a check that errors
propagates that error, and every `Ok` result comes from the final
byte-for-byte MRTD comparison after both checks returned `true` — `Ok true`
iff the endorsed MRTD (first measurement-list entry) equals the guest's
MRTD, so no earlier step ever returns a false result. -/
theorem C1_endorsement_flow (self : GcpTdxHost) (env : GcpEnv)
    (le : VMLaunchEndorsement) (g : VMGoldenMeasurement)
    (hret : env.retrieve = .ok le)
    (hg : env.parse_golden le.serialized_uefi_golden = .ok g) :
    (GcpTdxHost.verify_launch_endorsement_signing_cert env g = .ok false →
      self.verify_launch_endorsement env
        = .err (.SignatureError "Invalid launch endorsement signing cert")) ∧
    (∀ e, GcpTdxHost.verify_launch_endorsement_signing_cert env g = .error e →
      self.verify_launch_endorsement env = .err e) ∧
    (GcpTdxHost.verify_launch_endorsement_signing_cert env g = .ok true →
      GcpTdxHost.verify_launch_endorsement_sig env le g.cert = .ok false →
      self.verify_launch_endorsement env
        = .err (.SignatureError "Invalid launch endorsement signature")) ∧
    (∀ e, GcpTdxHost.verify_launch_endorsement_signing_cert env g = .ok true →
      GcpTdxHost.verify_launch_endorsement_sig env le g.cert = .error e →
      self.verify_launch_endorsement env = .err e) ∧
    (∀ b, self.verify_launch_endorsement env = .ok b →
      GcpTdxHost.verify_launch_endorsement_signing_cert env g = .ok true ∧
      GcpTdxHost.verify_launch_endorsement_sig env le g.cert = .ok true ∧
      ∃ m0 rest, g.tdx.measurements = m0 :: rest ∧ (b = true ↔ m0.mrtd = self.mrtd)) := by
  refine ⟨fun hc => ?_, fun e hc => ?_, fun hc hs => ?_, fun e hc hs => ?_, fun b hb => ?_⟩
  · simp [GcpTdxHost.verify_launch_endorsement, hret, hg, hc]
  · simp [GcpTdxHost.verify_launch_endorsement, hret, hg, hc]
  · simp [GcpTdxHost.verify_launch_endorsement, hret, hg, hc, hs]
  · simp [GcpTdxHost.verify_launch_endorsement, hret, hg, hc, hs]
  · rcases hc : GcpTdxHost.verify_launch_endorsement_signing_cert env g with e | vc
    · simp [GcpTdxHost.verify_launch_endorsement, hret, hg, hc] at hb
    · cases vc with
      | false => simp [GcpTdxHost.verify_launch_endorsement, hret, hg, hc] at hb
      | true =>
        rcases hs : GcpTdxHost.verify_launch_endorsement_sig env le g.cert with e | vs
        · simp [GcpTdxHost.verify_launch_endorsement, hret, hg, hc, hs] at hb
        · cases vs with
          | false => simp [GcpTdxHost.verify_launch_endorsement, hret, hg, hc, hs] at hb
          | true =>
            rcases hm : g.tdx.measurements with _ | ⟨m0, rest⟩
            · simp [GcpTdxHost.verify_launch_endorsement, hret, hg, hc, hs, hm] at hb
            · refine ⟨rfl, rfl, m0, rest, rfl, ?_⟩
              simp [GcpTdxHost.verify_launch_endorsement, hret, hg, hc, hs, hm] at hb
              simp [← hb]

/-- Witness for C1: the chain check completes with `false` and the flow
stops with the signing-cert `SignatureError`. -/
theorem C1_endorsement_flow_witness :
    GcpTdxHost.verify_launch_endorsement ⟨List.replicate 48 0⟩ certFailGcpEnv
      = .err (.SignatureError "Invalid launch endorsement signing cert") :=
  (C1_endorsement_flow ⟨List.replicate 48 0⟩ certFailGcpEnv
    { serialized_uefi_golden := [7], signature := [8] }
    { cert := [9], tdx := { measurements := [] } } rfl rfl).1 rfl

/-- C10: if the fetch and parses succeed, both cryptographic checks return
`true`, and the parsed golden measurement's TDX measurement list is empty,
then `verify_launch_endorsement` hits the unchecked `measurements[0]` index
and panics (out of bounds) instead of returning an error. -/
theorem C10_empty_measurements_panic (self : GcpTdxHost) (env : GcpEnv)
    (le : VMLaunchEndorsement) (g : VMGoldenMeasurement)
    (hret : env.retrieve = .ok le)
    (hg : env.parse_golden le.serialized_uefi_golden = .ok g)
    (hcert : GcpTdxHost.verify_launch_endorsement_signing_cert env g = .ok true)
    (hsig : GcpTdxHost.verify_launch_endorsement_sig env le g.cert = .ok true)
    (hempty : g.tdx.measurements = []) :
    self.verify_launch_endorsement env = .indexOutOfBounds := by
  simp [GcpTdxHost.verify_launch_endorsement, hret, hg, hcert, hsig, hempty]

/-- Witness for C10: all checks pass over an endorsement whose measurement
list is empty, and the call ends in the out-of-bounds outcome. -/
theorem C10_empty_measurements_panic_witness :
    GcpTdxHost.verify_launch_endorsement ⟨List.replicate 48 0⟩ emptyMeasGcpEnv
      = .indexOutOfBounds :=
  C10_empty_measurements_panic ⟨List.replicate 48 0⟩ emptyMeasGcpEnv
    { serialized_uefi_golden := [7], signature := [8] }
    { cert := [9], tdx := { measurements := [] } } rfl rfl rfl rfl rfl

end TdxAttest
